import Mathlib

/-!
Verification of the `docker` client package (`utils.go` and the main client
file) against its specification.

The Go code is shallowly embedded: each Go function becomes a Lean
definition over explicit data.  Network and JSON effects are modelled by an
explicit environment (`Env`) describing what the external world (dialer,
HTTP round trip, JSON decoder) returns for one call; the Go control flow is
then a pure function of that environment.  Multi-value Go returns
`(T, error)` become pairs `T × Option ReqError`; a Go `map` read/delete
becomes `mapGet`/`deleteKey` on an association list.
-/

namespace Docker

/-- An HTTP response as seen by `newRequest` after `c.Do(req)`:
the numeric status code and the status text (`resp.Status`). -/
structure Resp where
  statusCode : Nat
  status : String
deriving DecidableEq, Repr

/-- The failure cases of one `newRequest` call, in source order:
`json.Marshal` failure, `http.NewRequest` failure, dial failure inside
`newConn`, transport failure from `c.Do`, and rejection by the status
allow-list (carrying `resp.StatusCode` and `resp.Status`).  `decodeErr`
stands for a `json.Decoder.Decode` failure in a caller. -/
inductive ReqError where
  | marshalErr
  | newReqErr
  | dialErr
  | doErr
  | statusErr (code : Nat) (status : String)
  | decodeErr
deriving DecidableEq, Repr

/-- The environment of one `newRequest` call: whether `json.Marshal`,
`http.NewRequest` and the dial inside `newConn` succeed, and what `c.Do`
returns (`none` = transport error, `some resp` = a response). -/
structure Env where
  marshalOk : Bool
  newReqOk : Bool
  dialOk : Bool
  doResp : Option Resp
deriving DecidableEq, Repr

/-- The literal status-code map of `isOkStatus` (main file, lines 278-287). -/
def statusCodes : List (Nat × Bool) :=
  [(200, true), (201, true), (204, true),
   (400, false), (404, false), (500, false), (409, false), (406, false)]

/-- A Go map read `codes[code]` on an integer-keyed map of booleans:
the first matching entry, or the zero value via `getD false` below. -/
def mapGetBool : List (Nat × Bool) → Nat → Option Bool
  | [], _ => none
  | (c, v) :: rest, code => if c = code then some v else mapGetBool rest code

/-- `isOkStatus` (lines 277-290): a Go map lookup; a missing key yields the
zero value `false`, so any unlisted code is rejected. -/
def isOkStatus (code : Nat) : Bool :=
  (mapGetBool statusCodes code).getD false

/-- `newRequest` (lines 247-275): marshal the body, build the request, open
a connection via `newConn`, perform the round trip, and validate the status
against the allow-list.  On success the still-open body and connection are
returned to the caller. -/
def newRequest (e : Env) : Except ReqError Resp :=
  if !e.marshalOk then .error .marshalErr
  else if !e.newReqOk then .error .newReqErr
  else if !e.dialOk then .error .dialErr
  else
    match e.doResp with
    | none => .error .doErr
    | some resp =>
      if !isOkStatus resp.statusCode then
        .error (.statusErr resp.statusCode resp.status)
      else .ok resp

/-- Whether the call opened a connection: `newConn` dials exactly when
marshalling and request building succeeded, and the connection exists
exactly when the dial succeeded. -/
def connOpened (e : Env) : Bool :=
  e.marshalOk && e.newReqOk && e.dialOk

/-- How many times `newRequest` itself closes the connection it opened:
the function contains no `Close` call on any path, so always `0` —
in particular also when `c.Do` fails or the status check rejects the
response, where the connection is not returned to the caller either. -/
def newRequestCloses (_ : Env) : Nat := 0

/-- How many times the caller closes the connection.  Every caller of
`newRequest` closes the returned connection exactly once (via `defer
conn.Close()` or an explicit `conn.Close()`), on the success path and on
any later JSON-decode-failure path alike; when `newRequest` returns an
error the caller receives a nil connection and closes nothing. -/
def callerCloses (e : Env) : Nat :=
  match newRequest e with
  | .ok _ => 1
  | .error _ => 0

/-- Total number of `Close` calls on the connection opened by one
`newRequest` call, over the whole call including the caller's cleanup. -/
def connCloseCount (e : Env) : Nat :=
  newRequestCloses e + callerCloses e

/-- A JSON-serialisable Go value (`interface{}`) as far as the client
inspects one. -/
inductive GoVal where
  | str (s : String)
  | num (n : Int)
  | boolean (b : Bool)
  | null
deriving DecidableEq, Repr

/-- A Go `map[string]interface{}` as an association list. -/
abbrev GoMap := List (String × GoVal)

/-- A Go map read `m[k]`: the entry for `k`, if any. -/
def mapGet : GoMap → String → Option GoVal
  | [], _ => none
  | (a, v) :: rest, k => if a = k then some v else mapGet rest k

/-- A Go `delete(m, k)`: the map without the entry for `k`. -/
def deleteKey : GoMap → String → GoMap
  | [], _ => []
  | (a, v) :: rest, k =>
      if a = k then deleteKey rest k else (a, v) :: deleteKey rest k

/-- The URI built by `PullImage` (lines 118-120). -/
def pullImageUri (name : String) : String :=
  "/images/create?fromImage=" ++ name

/-- `PullImage` (lines 116-131): runs `newRequest` and, when it errors,
executes `return nil` (line 124), so the error is dropped; on success it
closes body and connection and returns nil. -/
def PullImage (name : String) (e : Env) : Option ReqError :=
  let _uri := pullImageUri name
  match newRequest e with
  | .error _ => none
  | .ok _ => none

/-- A request as handed to `newRequest` by `CreateContainer`. -/
structure SentRequest where
  method : String
  uri : String
  body : GoMap
deriving DecidableEq, Repr

/-- The request issued by `CreateContainer` (lines 149-161): when the
specification has a "Name" key, the query is formatted from the local
variable `name`, which still holds its zero value `""` at that point
(it is only assigned from the decoded response later); the body is the map
after `delete(container, "Name")`. -/
def createContainerRequest (container : GoMap) : SentRequest :=
  let name := ""
  { method := "POST"
    uri := if (mapGet container "Name").isSome then
             "/containers/create?name=" ++ name
           else "/containers/create"
    body := deleteKey container "Name" }

/-- The environment of one `CreateContainer` call: the request environment
plus the result of decoding the response body into `createResp` (`none` =
decode error, `some cid` = the decoded `Id`). -/
structure CreateEnv where
  req : Env
  decodedId : Option String
deriving DecidableEq, Repr

/-- `CreateContainer` (lines 149-179): deletes "Name" from the caller's
map unconditionally, issues the request, and decodes `{Id}` from the
response.  The second component is the caller's map after the call (the
Go map is mutated in place). -/
def CreateContainer (container : GoMap) (e : CreateEnv) :
    (String × Option ReqError) × GoMap :=
  let container' := deleteKey container "Name"
  match newRequest e.req with
  | .error err => (("", some err), container')
  | .ok _ =>
    match e.decodedId with
    | none => (("", some ReqError.decodeErr), container')
    | some cid => ((cid, none), container')

/-- The URI built by `StartContainer` (lines 183-185). -/
def startContainerUri (name : String) : String :=
  "/containers/" ++ name ++ "/start"

/-- `StartContainer` (lines 181-195): posts the host configuration and
propagates any `newRequest` error. -/
def StartContainer (name : String) (hostConfig : Option GoVal) (e : Env) :
    Option ReqError :=
  let _uri := startContainerUri name
  let _body := hostConfig
  match newRequest e with
  | .error err => some err
  | .ok _ => none

/-- One call performed by `RunContainer` on the client, with arguments. -/
inductive Call where
  | create (spec : GoMap)
  | start (name : String) (hostConfig : Option GoVal)
deriving DecidableEq, Repr

/-- The environment of one `RunContainer` call: one environment for the
Create request and one for the Start request. -/
structure RunEnv where
  createEnv : CreateEnv
  startEnv : Env
deriving DecidableEq, Repr

/-- `RunContainer` (lines 197-205): Create, then — only if Create did not
error — Start with the created name and `config["HostConfig"]` (the config
map having been mutated by Create, which only removed "Name").  The result
pairs the Go return values with the list of client calls performed. -/
def RunContainer (config : GoMap) (re : RunEnv) :
    (String × Option ReqError) × List Call :=
  let cr := CreateContainer config re.createEnv
  match cr.1 with
  | (_, some err) => (("", some err), [Call.create config])
  | (name, none) =>
      ((name, StartContainer name (mapGet cr.2 "HostConfig") re.startEnv),
       [Call.create config, Call.start name (mapGet cr.2 "HostConfig")])

/-- An `Event` record (`{id, status}`). -/
structure Event where
  ContainerId : String
  Status : String
deriving DecidableEq, Repr

/-- One unit of the events response body as seen by one
`json.Decoder.Decode` call: a unit decoding to an event, or a malformed
unit yielding a non-EOF decode error. -/
inductive StreamUnit where
  | valid (e : Event)
  | malformed
deriving DecidableEq, Repr

/-- The decode loop of `GetEvents` (lines 336-348), with the JSON decoder
treated as the black box the spec declares it to be, consuming one unit of
the body per `Decode` call: a valid unit yields the event (sent to
`eventChan`), a malformed unit yields a non-EOF error (logged, `continue`),
and end of body yields `io.EOF` (`break`).  The result is the sequence of
events published to the channel, in order. -/
def eventsLoop : List StreamUnit → List Event
  | [] => []
  | StreamUnit.valid e :: rest => e :: eventsLoop rest
  | StreamUnit.malformed :: rest => eventsLoop rest

/-- `RootPath` (lines 93-100) on `DriverStatus`: scan the rows; on the
first row whose element 0 is "Root Dir" return element 1; return "" after
the loop.  `i[0]` and `i[1]` are unchecked indexing, so a too-short row is
an index-out-of-range panic, modelled as `none`. -/
def RootPath : List (List String) → Option String
  | [] => some ""
  | i :: rest =>
    match i.get? 0 with
    | none => none
    | some h => if h = "Root Dir" then i.get? 1 else RootPath rest

/-- The claim's description of `RootPath`: the second element of the first
row whose first element is "Root Dir", and "" when no such row exists. -/
def rootPathSpec (ds : List (List String)) : String :=
  match ds.find? (fun r => decide (r.head? = some "Root Dir")) with
  | none => ""
  | some r => (r.get? 1).getD ""

/-- `strings.Split(url, "://")` from `ParseURL` (utils.go), on character
lists: cut at every non-overlapping occurrence of `://`, leftmost first. -/
def splitSep : List Char → List (List Char)
  | ':' :: '/' :: '/' :: rest => [] :: splitSep rest
  | c :: rest =>
      match splitSep rest with
      | [] => [[c]]
      | h :: t => (c :: h) :: t
  | [] => [[]]

/-- The spec's reading of the split: cut at the FIRST occurrence of `://`
only, returning the part before it and everything after it, or `none` when
the separator does not occur.  Used to compare `ParseURL` against the
claim's "everything after the first separator" description. -/
def splitFirstSep : List Char → Option (List Char × List Char)
  | ':' :: '/' :: '/' :: rest => some ([], rest)
  | c :: rest => (splitFirstSep rest).map (fun p => (c :: p.1, p.2))
  | [] => none

/-- The part of a string before its first `://`, or all of it:
the head field of the full split. -/
def headField (s : List Char) : List Char :=
  match splitFirstSep s with
  | none => s
  | some (l, _) => l

/-- The `http` to `tcp` normalisation inside `ParseURL` (utils.go,
lines 12-15). -/
def httpToTcp (s : String) : String :=
  if s = "http" then "tcp" else s

/-- `ParseURL` (utils.go, lines 5-18): split on `://`; a single field means
no separator, so scheme "unix" and the whole string; otherwise the first
field (with `http` mapped to `tcp`) and the second field. -/
def ParseURL (url : String) : String × String :=
  match splitSep url.data with
  | [x] => ("unix", String.mk x)
  | x :: y :: _ => (httpToTcp (String.mk x), String.mk y)
  | [] => ("unix", "")

/-- Environment: daemon answers 418 (an unlisted code). -/
def env418 : Env := ⟨true, true, true, some ⟨418, "418 Teapot"⟩⟩

/-- Environment: daemon answers 404. -/
def env404 : Env := ⟨true, true, true, some ⟨404, "404 Not Found"⟩⟩

/-- Environment: daemon answers 400. -/
def env400 : Env := ⟨true, true, true, some ⟨400, "400 Bad Request"⟩⟩

/-- Environment: daemon answers 200. -/
def env200 : Env := ⟨true, true, true, some ⟨200, "200 OK"⟩⟩

/-- Environment: daemon answers 500. -/
def env500 : Env := ⟨true, true, true, some ⟨500, "500 Internal Server Error"⟩⟩

/-- Environment: the round trip `c.Do` itself fails. -/
def envDoFail : Env := ⟨true, true, true, none⟩

/-- Environment: the dial inside `newConn` fails. -/
def envDialFail : Env := ⟨true, true, false, none⟩

/-- A container specification carrying a "Name" and an "Image" key. -/
def cfgNamed : GoMap := [("Name", GoVal.str "foo"), ("Image", GoVal.str "img")]

/-- A container specification carrying a "HostConfig" key. -/
def cfgHost : GoMap := [("HostConfig", GoVal.str "hc")]

/-- A `CreateContainer` environment whose request succeeds and whose
response decodes to the identifier "abc". -/
def cEnvOk : CreateEnv := ⟨env200, some "abc"⟩

/-- A `RunContainer` environment where Create succeeds with identifier
"abc" and Start is answered with status 500. -/
def reStartFails : RunEnv := ⟨cEnvOk, env500⟩

/-- A `RunContainer` environment where the Create request cannot even
dial. -/
def reCreateFails : RunEnv := ⟨⟨envDialFail, none⟩, env200⟩

/-- A `DriverStatus` value whose rows all have at least two elements. -/
def dsW : List (List String) :=
  [["Pool Name", "docker-pool"], ["Root Dir", "/var/lib/docker/devicemapper"]]

/- ------------------------------------------------------------------ -/
/- Helper lemmas                                                       -/
/- ------------------------------------------------------------------ -/

theorem isOkStatus_iff (code : Nat) :
    isOkStatus code = true ↔ code = 200 ∨ code = 201 ∨ code = 204 := by
  by_cases h200 : code = 200 <;> by_cases h201 : code = 201 <;>
    by_cases h204 : code = 204 <;> by_cases h400 : code = 400 <;>
    by_cases h404 : code = 404 <;> by_cases h500 : code = 500 <;>
    by_cases h409 : code = 409 <;> by_cases h406 : code = 406 <;>
    simp_all [isOkStatus, statusCodes, mapGetBool, eq_comm]

theorem mapGet_deleteKey_self (m : GoMap) (k : String) :
    mapGet (deleteKey m k) k = none := by
  induction m with
  | nil => rfl
  | cons p rest ih =>
    obtain ⟨a, v⟩ := p
    by_cases h : a = k <;> simp_all [deleteKey, mapGet]

theorem mapGet_deleteKey_other (m : GoMap) (k k' : String) (h : k' ≠ k) :
    mapGet (deleteKey m k) k' = mapGet m k' := by
  induction m with
  | nil => rfl
  | cons p rest ih =>
    obtain ⟨a, v⟩ := p
    by_cases ha : a = k
    · subst ha
      have : a ≠ k' := fun he => h (he.symm ▸ rfl)
      simp_all [deleteKey, mapGet]
    · by_cases hb : a = k' <;> simp_all [deleteKey, mapGet]

theorem createContainer_snd (c : GoMap) (e : CreateEnv) :
    (CreateContainer c e).2 = deleteKey c "Name" := by
  unfold CreateContainer
  cases newRequest e.req with
  | error err => rfl
  | ok r => cases e.decodedId <;> rfl

theorem splitSep_ne_nil (s : List Char) : splitSep s ≠ [] := by
  induction s using splitSep.induct with
  | _ => simp_all [splitSep]

theorem splitSep_first (s : List Char) :
    splitSep s = (match splitFirstSep s with
      | none => [s]
      | some (l, r) => l :: splitSep r) := by
  induction s using splitSep.induct with
  | case1 rest => rw [splitSep, splitFirstSep]
  | case2 c rest hne hm =>
    exact absurd hm (splitSep_ne_nil rest)
  | case3 c rest hne h t hm ih =>
    rw [splitSep.eq_def, splitFirstSep.eq_def]
    split
    · next r heq =>
      injection heq with h1 h2
      exact (hne r h1 h2).elim
    · next c' rest' hne' heq =>
      injection heq with h1 h2
      subst h1; subst h2
      rw [hm]
      cases hf : splitFirstSep rest with
      | none =>
        rw [hf] at ih; simp only [] at ih
        rw [ih] at hm
        injection hm with h1 h2
        subst h1; subst h2
        simp
      | some p =>
        obtain ⟨l, r⟩ := p
        rw [hf] at ih; simp only [] at ih
        rw [ih] at hm
        injection hm with h1 h2
        subst h1; subst h2
        simp
    · next heq => exact absurd heq (by simp)
  | case4 => rw [splitSep, splitFirstSep]

/- ------------------------------------------------------------------ -/
/- Claims                                                              -/
/- ------------------------------------------------------------------ -/

/-- C1: for every status code returned by the daemon, `newRequest` succeeds
(returning the open body and connection) iff the code is 200, 201 or 204;
every other code — the listed failure codes 400, 404, 406, 409, 500 and any
unlisted code such as 418 alike — fails with an error carrying the status
code and status text, built identically for listed and unlisted codes. -/
theorem newRequest_allowlist (e : Env) (code : Nat) (status : String)
    (hm : e.marshalOk = true) (hn : e.newReqOk = true) (hd : e.dialOk = true)
    (hr : e.doResp = some ⟨code, status⟩) :
    ((∃ r, newRequest e = .ok r) ↔ (code = 200 ∨ code = 201 ∨ code = 204)) ∧
    (¬(code = 200 ∨ code = 201 ∨ code = 204) →
      newRequest e = .error (.statusErr code status)) := by
  have hiff := isOkStatus_iff code
  by_cases hok : isOkStatus code = true
  · have hc := hiff.mp hok
    simp [newRequest, hm, hn, hd, hr, hok, hc]
  · have hc : ¬(code = 200 ∨ code = 201 ∨ code = 204) := fun h => hok (hiff.mpr h)
    have hof : isOkStatus code = false := by simpa using hok
    simp [newRequest, hm, hn, hd, hr, hof, hc]

/-- Witness for C1 at the unlisted code 418. -/
theorem newRequest_allowlist_witness :
    ((∃ r, newRequest env418 = .ok r) ↔ (418 = 200 ∨ 418 = 201 ∨ 418 = 204)) ∧
    (¬(418 = 200 ∨ 418 = 201 ∨ 418 = 204) →
      newRequest env418 = .error (.statusErr 418 "418 Teapot")) :=
  newRequest_allowlist env418 418 "418 Teapot" rfl rfl rfl rfl

/-- C2 fails on the code: with the daemon answering 404 the underlying
request made by `PullImage` fails with a status error, yet `PullImage`
returns no error — line 124 executes `return nil` instead of
`return err`, dropping the failure instead of propagating it. -/
theorem pullImage_drops_failure :
    newRequest env404 = .error (.statusErr 404 "404 Not Found") ∧
    PullImage "busybox" env404 = none :=
  ⟨rfl, rfl⟩

/-- C3 fails on the code: when the status check rejects the response (code
400) or when `c.Do` fails, the connection was opened but is closed zero
times — neither `newRequest` (which contains no `Close`) nor the caller
(which got a nil connection) closes it; only the success path reaches the
count of exactly one close. -/
theorem connection_leak_on_reject :
    (connOpened env400 = true ∧ connCloseCount env400 = 0) ∧
    (connOpened envDoFail = true ∧ connCloseCount envDoFail = 0) ∧
    (connOpened env200 = true ∧ connCloseCount env200 = 1) :=
  ⟨⟨rfl, rfl⟩, ⟨rfl, rfl⟩, ⟨rfl, rfl⟩⟩

/-- C4 fails on the code: for a specification with Name "foo", the issued
query string is `name=` with an EMPTY value — the `fmt.Sprintf` on line 157
interpolates the local variable `name`, still `""`, not the map's value —
so the query does not carry "foo"; the body is indeed stripped of "Name". -/
theorem createContainer_empty_name_in_query :
    (createContainerRequest cfgNamed).uri = "/containers/create?name=" ∧
    (createContainerRequest cfgNamed).uri ≠ "/containers/create?name=foo" ∧
    mapGet (createContainerRequest cfgNamed).body "Name" = none := by
  refine ⟨rfl, by decide, rfl⟩

/-- C5 fails as stated: `strings.Split` cuts at EVERY occurrence of `://`
and `ParseURL` keeps only fields 0 and 1, so for "a://b://c" the endpoint
is "b", not everything after the first separator ("b://c"). -/
theorem parseURL_not_whole_right_side :
    ParseURL "a://b://c" = ("a", "b") ∧ ParseURL "a://b://c" ≠ ("a", "b://c") := by
  constructor <;> decide

/-- C5 amended: `ParseURL` is pure and total; with no `://` in the input it
returns scheme "unix" and the whole string; otherwise it returns the part
before the first separator as the scheme (with "http" mapped to "tcp") and,
as the endpoint, only the part of the remainder before the NEXT separator
(for inputs with a single separator this is everything after it). -/
theorem parseURL_split_behaviour (url : String) :
    (splitFirstSep url.data = none → ParseURL url = ("unix", url)) ∧
    (∀ l r, splitFirstSep url.data = some (l, r) →
      ParseURL url = (httpToTcp (String.mk l), String.mk (headField r))) := by
  constructor
  · intro h
    have hs := splitSep_first url.data
    rw [h] at hs
    simp only [ParseURL, hs]
  · intro l r h
    have hs := splitSep_first url.data
    rw [h] at hs
    simp only [] at hs
    cases hf : splitFirstSep r with
    | none =>
      have hr := splitSep_first r
      rw [hf] at hr
      simp only [ParseURL, hs, hr, headField, hf]
    | some p =>
      obtain ⟨l', r'⟩ := p
      have hr := splitSep_first r
      rw [hf] at hr
      simp only [] at hr
      cases hS : splitSep r' with
      | nil => exact absurd hS (splitSep_ne_nil r')
      | cons a b =>
        rw [hS] at hr
        simp only [ParseURL, hs, hr, headField, hf]

/-- Witness for the amended C5 on "http://h:1": scheme normalised to tcp,
endpoint "h:1". -/
theorem parseURL_split_behaviour_witness :
    ParseURL "http://h:1" =
      (httpToTcp (String.mk ['h', 't', 't', 'p']),
       String.mk (headField ['h', ':', '1'])) :=
  (parseURL_split_behaviour "http://h:1").2
    ['h', 't', 't', 'p'] ['h', ':', '1'] (by decide)

/-- C6: whenever Create fails inside `RunContainer`, the returned identifier
is the empty string, Create's error is returned, and Start is never
invoked — the trace holds only the Create call. -/
theorem runContainer_create_failure (config : GoMap) (re : RunEnv)
    (err : ReqError)
    (h : (CreateContainer config re.createEnv).1.2 = some err) :
    (RunContainer config re).1 = ("", some err) ∧
    (RunContainer config re).2 = [Call.create config] ∧
    ∀ n hc, Call.start n hc ∉ (RunContainer config re).2 := by
  rcases hcr : CreateContainer config re.createEnv with ⟨⟨n0, e0⟩, m0⟩
  rw [hcr] at h
  simp only [] at h
  subst h
  simp [RunContainer, hcr]

/-- Witness for C6: a Create whose dial fails. -/
theorem runContainer_create_failure_witness :
    (RunContainer cfgHost reCreateFails).1 = ("", some ReqError.dialErr) ∧
    (RunContainer cfgHost reCreateFails).2 = [Call.create cfgHost] ∧
    Call.start "abc" none ∉ (RunContainer cfgHost reCreateFails).2 :=
  ⟨(runContainer_create_failure cfgHost reCreateFails ReqError.dialErr rfl).1,
   (runContainer_create_failure cfgHost reCreateFails ReqError.dialErr rfl).2.1,
   (runContainer_create_failure cfgHost reCreateFails ReqError.dialErr rfl).2.2
     "abc" none⟩

/-- C7 fails as stated: with Create succeeding ("abc") and Start answered
with status 500, `RunContainer` still returns the created identifier "abc"
(alongside Start's error), so "returns the created identifier only if Start
succeeds" does not hold of the code. -/
theorem runContainer_returns_id_despite_start_failure :
    ¬ ((RunContainer cfgHost reStartFails).1.1 = "abc" →
       (RunContainer cfgHost reStartFails).1.2 = none) := by
  decide

/-- C7 amended: whenever Create succeeds with identifier `n`, `RunContainer`
invokes Start with `n` and the "HostConfig" sub-value of the original
specification, propagates Start's error verbatim as its own error value,
and returns the created identifier regardless of Start's outcome; the trace
is exactly Create-then-Start — nothing undoes the creation when Start
fails (no rollback). -/
theorem runContainer_create_success (config : GoMap) (re : RunEnv)
    (n : String)
    (h : (CreateContainer config re.createEnv).1 = (n, none)) :
    (RunContainer config re).1.1 = n ∧
    (RunContainer config re).1.2 =
      StartContainer n (mapGet config "HostConfig") re.startEnv ∧
    (RunContainer config re).2 =
      [Call.create config, Call.start n (mapGet config "HostConfig")] := by
  rcases hcr : CreateContainer config re.createEnv with ⟨⟨n0, e0⟩, m0⟩
  rw [hcr] at h
  injection h with h1 h2
  subst h1; subst h2
  have hm0 : m0 = deleteKey config "Name" := by
    have := createContainer_snd config re.createEnv
    rw [hcr] at this
    exact this
  have hHost : mapGet m0 "HostConfig" = mapGet config "HostConfig" := by
    rw [hm0]
    exact mapGet_deleteKey_other config "Name" "HostConfig" (by decide)
  simp [RunContainer, hcr, hHost]

/-- Witness for the amended C7: Create succeeds with "abc", Start fails
with status 500; the identifier "abc" is still returned, Start's error is
propagated, and the trace is Create then Start. -/
theorem runContainer_create_success_witness :
    (RunContainer cfgHost reStartFails).1.1 = "abc" ∧
    (RunContainer cfgHost reStartFails).1.2 =
      StartContainer "abc" (mapGet cfgHost "HostConfig") reStartFails.startEnv ∧
    (RunContainer cfgHost reStartFails).2 =
      [Call.create cfgHost, Call.start "abc" (mapGet cfgHost "HostConfig")] :=
  runContainer_create_success cfgHost reStartFails "abc" rfl

/-- C8: an events body with one malformed unit between two valid event
units yields exactly the two valid events, in order — the decode error is
logged and skipped by the `continue`, never ending the stream. -/
theorem eventsLoop_skips_malformed (e1 e2 : Event) :
    eventsLoop [StreamUnit.valid e1, StreamUnit.malformed, StreamUnit.valid e2] =
      [e1, e2] :=
  rfl

/-- C9: when every `DriverStatus` row has at least two elements, `RootPath`
returns (without panicking) the second element of the first row whose first
element is "Root Dir", and "" when no such row exists; without the
precondition the unchecked `i[0]` and `i[1]` can go out of bounds — an
empty row panics at `i[0]`, a one-element "Root Dir" row panics at
`i[1]`. -/
theorem rootPath_characterization (ds : List (List String))
    (h : ∀ r ∈ ds, 2 ≤ r.length) :
    RootPath ds = some (rootPathSpec ds) ∧
    RootPath [[]] = none ∧ RootPath [["Root Dir"]] = none := by
  refine ⟨?_, rfl, rfl⟩
  induction ds with
  | nil => rfl
  | cons i rest ih =>
    have hi : 2 ≤ i.length := h i (List.mem_cons_self i rest)
    obtain ⟨a, b, t, rfl⟩ : ∃ a b t, i = a :: b :: t := by
      cases i with
      | nil => simp at hi
      | cons a i' =>
        cases i' with
        | nil => simp at hi
        | cons b t => exact ⟨a, b, t, rfl⟩
    by_cases ha : a = "Root Dir"
    · subst ha
      simp [RootPath, rootPathSpec, List.find?]
    · have ih' := ih (fun r hr => h r (List.mem_cons_of_mem _ hr))
      simp [RootPath, rootPathSpec, List.find?, ha] at ih' ⊢
      exact ih'

/-- Witness for C9 on a two-row `DriverStatus` whose rows have two elements
each. -/
theorem rootPath_characterization_witness :
    RootPath dsW = some (rootPathSpec dsW) ∧
    RootPath [[]] = none ∧ RootPath [["Root Dir"]] = none :=
  rootPath_characterization dsW (by decide)

/-- C10: `CreateContainer` deletes the "Name" key from the caller's map on
every path — also when the request fails — and leaves every other key of
the map unchanged. -/
theorem createContainer_mutates_only_name (container : GoMap) (e : CreateEnv)
    (k : String) :
    mapGet (CreateContainer container e).2 "Name" = none ∧
    (k ≠ "Name" →
      mapGet (CreateContainer container e).2 k = mapGet container k) := by
  rw [createContainer_snd]
  exact ⟨mapGet_deleteKey_self container "Name",
         fun hk => mapGet_deleteKey_other container "Name" k hk⟩

/-- Witness for C10 on a map with a "Name" and an "Image" key, in an
environment where the request fails with status 404. -/
theorem createContainer_mutates_only_name_witness :
    mapGet (CreateContainer cfgNamed ⟨env404, none⟩).2 "Name" = none ∧
    mapGet (CreateContainer cfgNamed ⟨env404, none⟩).2 "Image" =
      mapGet cfgNamed "Image" :=
  ⟨(createContainer_mutates_only_name cfgNamed ⟨env404, none⟩ "Image").1,
   (createContainer_mutates_only_name cfgNamed ⟨env404, none⟩ "Image").2
     (by decide)⟩

end Docker
